import Mathlib

/-!
Verification development for the Glotón Urbano API/storage layer.

Shallow embedding of:
- `StorageService` (src/unnamed/part_004): in-memory key/value map, auth helpers,
  `clearAuthData`;
- `ApiService` (src/services/ApiService.js): `request`, `refreshToken`, `logout`,
  `registerAnalyticsEvent`;
- `EnhancedApiService` (src/services/EnhancedApiService.js): `request` with the
  401 refresh-and-retry protocol, `refreshToken` single-flight, `logout`,
  `getUserProfile`, `getUserPermissions`, `getHighestRoleLevel`;
- `AuthProvider.getHighestRoleLevel` (src/unnamed/part_003).

JavaScript is single-threaded; every `async` function runs synchronously up to its
first `await`, so a whole call chain between two suspension points is modelled as
one deterministic Lean function.  Network I/O is modelled by an oracle: a list of
pending `NetOutcome`s consumed one per `fetch`, together with a trace of the
endpoints called.  JavaScript numbers appearing in the modelled code are only
ever compared against integer constants, so they are embedded as `Int`.
-/

/-- A role as cached by `AuthProvider` (`{ name, level }`). -/
structure Role where
  name : String
  level : Int
deriving DecidableEq, Repr

/-- JavaScript values that flow through the modelled code: strings (tokens,
expiry ISO strings, profile payloads), arrays of strings (permissions), numbers
and role arrays. -/
inductive Val where
  | vStr (s : String)
  | vList (l : List String)
  | vInt (n : Int)
  | vRoles (rs : List Role)
deriving DecidableEq, Repr

/-- JavaScript truthiness for the values of `Val` ("" , 0 are falsy; arrays are
always truthy). -/
def jsTruthy : Val → Bool
  | .vStr s => s != ""
  | .vList _ => true
  | .vInt n => n != 0
  | .vRoles _ => true

/-- Truthiness of a possibly-undefined value. -/
def jsTruthyOpt : Option Val → Bool
  | none => false
  | some v => jsTruthy v

/-- Truthiness of a possibly-undefined string (`!eventData[field]` checks). -/
def jsTruthyStrOpt : Option String → Bool
  | none => false
  | some s => s != ""

/-- Whether `sub` occurs as a contiguous run inside `l`. -/
def listContainsRun (sub : List Char) : List Char → Bool
  | [] => sub.isEmpty
  | c :: rest => sub.isPrefixOf (c :: rest) || listContainsRun sub rest

/-- `s.includes(sub)` on JavaScript strings. -/
def jsIncludes (s sub : String) : Bool := listContainsRun sub.toList s.toList

/-- `m || fb` where `m` is a possibly-absent string: the fallback is used when
the value is absent or the empty string (both falsy in JavaScript). -/
def jsOrStr : Option String → String → String
  | none, fb => fb
  | some s, fb => if s = "" then fb else s

/-- Thrown JavaScript errors distinguished by constructor, as the modelled code
distinguishes them: `TypeError` (calling an undefined method) vs `new Error(msg)`. -/
inductive JsErr where
  | typeError (m : String)
  | error (m : String)
deriving DecidableEq, Repr

/-- The `.message` property of a thrown error. -/
def JsErr.msg : JsErr → String
  | .typeError m => m
  | .error m => m

/-! ## StorageService (src/unnamed/part_004)

`this.memoryStorage` is a JavaScript `Map`; we embed it as an association list
with `Map.get` / `Map.set` / `Map.delete` semantics. -/

abbrev Storage := List (String × Val)

/-- `memoryStorage.get k` (before the `|| null` coercion). -/
def mapGet : Storage → String → Option Val
  | [], _ => none
  | (k', v) :: rest, k => if k' = k then some v else mapGet rest k

/-- `memoryStorage.set k v`. -/
def mapSet : Storage → String → Val → Storage
  | [], k, v => [(k, v)]
  | (k', v') :: rest, k, v =>
      if k' = k then (k, v) :: rest else (k', v') :: mapSet rest k v

/-- `memoryStorage.delete k`. -/
def mapDelete : Storage → String → Storage
  | [], _ => []
  | (k', v) :: rest, k =>
      if k' = k then mapDelete rest k else (k', v) :: mapDelete rest k

/-- The fixed key set of `StorageService` (`this.keys`). -/
def keys.authToken : String := "gu_auth_token"

def keys.refreshToken : String := "gu_refresh_token"

def keys.tokenExpiry : String := "gu_token_expiry"

def keys.userProfile : String := "gu_user_profile"

def keys.userRoles : String := "gu_user_roles"

def keys.userPermissions : String := "gu_user_permissions"

def keys.appSettings : String := "gu_app_settings"

/-- `StorageService.setItem`: the `Map.set` call cannot throw, so the
try/catch always resolves with `true`. -/
def StorageService.setItem (st : Storage) (k : String) (v : Val) :
    Storage × Except JsErr Bool :=
  (mapSet st k v, .ok true)

/-- `memoryStorage.get(key) || null`: a stored falsy value reads back as null. -/
def getItemVal (st : Storage) (k : String) : Option Val :=
  match mapGet st k with
  | none => none
  | some v => if jsTruthy v then some v else none

/-- `StorageService.getItem`: never throws. -/
def StorageService.getItem (st : Storage) (k : String) :
    Except JsErr (Option Val) :=
  .ok (getItemVal st k)

/-- `StorageService.removeItem`: never throws. -/
def StorageService.removeItem (st : Storage) (k : String) :
    Storage × Except JsErr Bool :=
  (mapDelete st k, .ok true)

/-- `StorageService.clear`: never throws. -/
def StorageService.clear (_st : Storage) : Storage × Except JsErr Bool :=
  ([], .ok true)

/-- `StorageService.storeAuthToken`. -/
def StorageService.storeAuthToken (st : Storage) (v : Val) :
    Storage × Except JsErr Bool :=
  StorageService.setItem st keys.authToken v

/-- `StorageService.getAuthToken`. -/
def StorageService.getAuthToken (st : Storage) : Except JsErr (Option Val) :=
  StorageService.getItem st keys.authToken

/-- `StorageService.removeAuthToken`. -/
def StorageService.removeAuthToken (st : Storage) : Storage × Except JsErr Bool :=
  StorageService.removeItem st keys.authToken

/-- `StorageService.storeRefreshToken`. -/
def StorageService.storeRefreshToken (st : Storage) (v : Val) :
    Storage × Except JsErr Bool :=
  StorageService.setItem st keys.refreshToken v

/-- `StorageService.removeRefreshToken`. -/
def StorageService.removeRefreshToken (st : Storage) :
    Storage × Except JsErr Bool :=
  StorageService.removeItem st keys.refreshToken

/-- `StorageService.storeTokenExpiry` (the `Date` → ISO-string conversion is
abstracted: the argument is already the stored string form). -/
def StorageService.storeTokenExpiry (st : Storage) (iso : String) :
    Storage × Except JsErr Bool :=
  StorageService.setItem st keys.tokenExpiry (.vStr iso)

/-- `StorageService.storeUserProfile`. -/
def StorageService.storeUserProfile (st : Storage) (v : Val) :
    Storage × Except JsErr Bool :=
  StorageService.setItem st keys.userProfile v

/-- `StorageService.getUserProfile`. -/
def StorageService.getUserProfile (st : Storage) : Except JsErr (Option Val) :=
  StorageService.getItem st keys.userProfile

/-- `StorageService.removeUserProfile`. -/
def StorageService.removeUserProfile (st : Storage) :
    Storage × Except JsErr Bool :=
  StorageService.removeItem st keys.userProfile

/-- `StorageService.storeUserRoles`. -/
def StorageService.storeUserRoles (st : Storage) (v : Val) :
    Storage × Except JsErr Bool :=
  StorageService.setItem st keys.userRoles v

/-- `StorageService.removeUserRoles`. -/
def StorageService.removeUserRoles (st : Storage) : Storage × Except JsErr Bool :=
  StorageService.removeItem st keys.userRoles

/-- `StorageService.storeUserPermissions`. -/
def StorageService.storeUserPermissions (st : Storage) (v : Val) :
    Storage × Except JsErr Bool :=
  StorageService.setItem st keys.userPermissions v

/-- `StorageService.getUserPermissions`. -/
def StorageService.getUserPermissions (st : Storage) :
    Except JsErr (Option Val) :=
  StorageService.getItem st keys.userPermissions

/-- `StorageService.removeUserPermissions`. -/
def StorageService.removeUserPermissions (st : Storage) :
    Storage × Except JsErr Bool :=
  StorageService.removeItem st keys.userPermissions

/-- `StorageService.clearAuthData` (src/unnamed/part_004:284-301).

The source builds the array
`[removeAuthToken(), removeRefreshToken(), removeTokenExpiry(), ...]` and only
then enters the `try` block.  Array elements are evaluated left to right:
`removeAuthToken()` and `removeRefreshToken()` are async methods with no
internal `await`, so their bodies run to completion synchronously, deleting the
two keys.  The third element calls `this.removeTokenExpiry()` — a method that
is **not defined anywhere on the class** — so property lookup yields
`undefined` and the call throws a `TypeError` synchronously, *outside* the
`try`/`catch`.  The async function therefore rejects with that `TypeError`
after having removed exactly the auth-token and refresh-token keys. -/
def StorageService.clearAuthData (st : Storage) : Storage × Except JsErr Bool :=
  let st1 := (StorageService.removeAuthToken st).1
  let st2 := (StorageService.removeRefreshToken st1).1
  (st2, .error (.typeError "this.removeTokenExpiry is not a function"))

/-! ## Network model

`fetch` outcomes are supplied by an oracle: the world carries a list of pending
outcomes, consumed one per request, plus the trace of endpoints called.  A
response carries its HTTP status and the parsed JSON body, projected onto the
envelope fields the modelled code reads. -/

/-- The parsed JSON body, restricted to the envelope fields the code reads
(`success`, `message`, `data.token`, `data.user`, `data.permissions`,
`data.highest_role_level`). -/
structure Envelope where
  success : Bool := false
  message : Option String := none
  token : Option Val := none
  user : Option Val := none
  permissions : Option Val := none
  highestRoleLevel : Option Val := none
deriving DecidableEq, Repr

/-- Outcome of one `fetch`: a response (any status) with a parsed body, or a
rejection (network failure / timeout). -/
inductive NetOutcome where
  | resp (status : Nat) (env : Envelope)
  | netFail (m : String)
deriving DecidableEq, Repr

/-- World state threaded through the service layer: the storage map, the
in-memory token of the base `ApiService`, the oracle of pending network
outcomes, and the trace of endpoints fetched so far. -/
structure W where
  storage : Storage := []
  token : Option Val := none
  pending : List NetOutcome := []
  calls : List String := []
deriving DecidableEq, Repr

/-- One `fetch(url, config)`: consumes the next pending outcome and records the
endpoint in the trace. -/
def netFetch (ep : String) (w : W) : NetOutcome × W :=
  match w.pending with
  | [] => (.netFail "Network request failed", { w with calls := w.calls ++ [ep] })
  | o :: rest => (o, { w with pending := rest, calls := w.calls ++ [ep] })

/-- `response.ok`: status in the inclusive range 200-299. -/
def statusOk (s : Nat) : Bool := decide (200 ≤ s ∧ s < 300)

/-! ## ApiService (src/services/ApiService.js) -/

/-- `ApiService.request` (lines 64-124): fetch, parse JSON, and on `!response.ok`
throw `new Error(data.message || 'HTTP <status>')`; a rejected fetch propagates
its error.  Header construction does not affect any claim and is not modelled. -/
def ApiService.request (ep : String) (w : W) : Except JsErr Envelope × W :=
  match netFetch ep w with
  | (.resp s env, w1) =>
      if statusOk s then (.ok env, w1)
      else (.error (.error (jsOrStr env.message ("HTTP " ++ toString s))), w1)
  | (.netFail m, w1) => (.error (.error m), w1)

/-- `ApiService.refreshToken` (lines 222-232): POST `/refresh`; on a success
envelope containing a truthy token, `setToken` stores it on the client. -/
def ApiService.refreshToken (w : W) : Except JsErr Envelope × W :=
  match ApiService.request "/refresh" w with
  | (.ok env, w1) =>
      if env.success && jsTruthyOpt env.token then
        (.ok env, { w1 with token := env.token })
      else (.ok env, w1)
  | (.error e, w1) => (.error e, w1)

/-- `ApiService.logout` (lines 166-176): POST `/logout`; on a success envelope,
`clearToken`. -/
def ApiService.logout (w : W) : Except JsErr Envelope × W :=
  match ApiService.request "/logout" w with
  | (.ok env, w1) =>
      if env.success then (.ok env, { w1 with token := none })
      else (.ok env, w1)
  | (.error e, w1) => (.error e, w1)

/-! ## EnhancedApiService (src/services/EnhancedApiService.js)

The functions below model one sequential execution with no concurrent refresh
in flight (`this.refreshPromise === null` on entry); the single-flight guard
itself is modelled separately for the concurrency claim.  `request` is modelled
after initialization has completed (`initialize()` at its head returns
immediately once `isInitialized` is set; the initialization protocol is also
modelled separately). -/

/-- `EnhancedApiService.refreshToken` (lines 103-136), body of the in-flight
promise: on a success envelope with a truthy token, persist the token and a
fresh 24-hour expiry; on a thrown error, the catch block awaits
`clearAuthData()` — which itself rejects with a `TypeError` — so that rejection
replaces the original error and `clearToken()` / `throw error` are never
reached. -/
def EnhancedApiService.refreshToken (w : W) : Except JsErr Envelope × W :=
  match ApiService.refreshToken w with
  | (.ok env, w1) =>
      if env.success && jsTruthyOpt env.token then
        let st1 := (StorageService.storeAuthToken w1.storage
          (env.token.getD (.vStr ""))).1
        let st2 := (StorageService.storeTokenExpiry st1 "expiry+24h").1
        (.ok env, { w1 with storage := st2 })
      else (.ok env, w1)
  | (.error e, w1) =>
      match StorageService.clearAuthData w1.storage with
      | (st1, .error te) => (.error te, { w1 with storage := st1 })
      | (st1, .ok _) => (.error e, { w1 with storage := st1, token := none })

/-- `EnhancedApiService.logout` (lines 79-97): remote logout; on a success
envelope, `clearAuthData()` then `clearToken()`; any thrown error is caught and
the catch block again runs `clearAuthData()` then `clearToken()` and rethrows.
A rejection of `clearAuthData` propagates out of whichever block awaited it. -/
def EnhancedApiService.logout (w : W) : Except JsErr Envelope × W :=
  match ApiService.logout w with
  | (.ok env, w1) =>
      if env.success then
        match StorageService.clearAuthData w1.storage with
        | (st1, .error te) =>
            -- thrown inside the try: the catch block runs clearAuthData again
            match StorageService.clearAuthData st1 with
            | (st2, .error te2) => (.error te2, { w1 with storage := st2 })
            | (st2, .ok _) => (.error te, { w1 with storage := st2, token := none })
        | (st1, .ok _) => (.ok env, { w1 with storage := st1, token := none })
      else (.ok env, w1)
  | (.error e, w1) =>
      match StorageService.clearAuthData w1.storage with
      | (st1, .error te) => (.error te, { w1 with storage := st1 })
      | (st1, .ok _) => (.error e, { w1 with storage := st1, token := none })

/-- `options.requireAuth !== false`. -/
def raNotFalse : Option Bool → Bool
  | some false => false
  | _ => true

/-- `EnhancedApiService.request` (lines 144-164), modelled post-initialization:
attempt the call; if it throws and `error.message.includes('401')` and
`options.requireAuth !== false`, run `refreshToken()` and retry the original
call once; if the refresh or the retry throws, run `logout()` and throw
`new Error('Authentication expired. Please login again.')` (a rejection of
`logout()` itself propagates instead). -/
def EnhancedApiService.request (ep : String) (ra : Option Bool) (w : W) :
    Except JsErr Envelope × W :=
  match ApiService.request ep w with
  | (.ok env, w1) => (.ok env, w1)
  | (.error e, w1) =>
      if jsIncludes e.msg "401" && raNotFalse ra then
        match EnhancedApiService.refreshToken w1 with
        | (.ok _, w2) =>
            match ApiService.request ep w2 with
            | (.ok env, w3) => (.ok env, w3)
            | (.error _, w3) =>
                match EnhancedApiService.logout w3 with
                | (.ok _, w4) =>
                    (.error (.error "Authentication expired. Please login again."), w4)
                | (.error le, w4) => (.error le, w4)
        | (.error _, w2) =>
            match EnhancedApiService.logout w2 with
            | (.ok _, w3) =>
                (.error (.error "Authentication expired. Please login again."), w3)
            | (.error le, w3) => (.error le, w3)
      else (.error e, w1)

/-- `EnhancedApiService.getUserProfile` (lines 171-186): unless forced, read the
stored profile and return it wrapped in a success envelope; otherwise fetch
`/user` (no explicit options, so `requireAuth` is undefined) and persist
`data.user` on a success envelope containing one. -/
def EnhancedApiService.getUserProfile (forceRefresh : Bool) (w : W) :
    Except JsErr Envelope × W :=
  match (if forceRefresh then none
    else getItemVal w.storage keys.userProfile : Option Val) with
  | some u => (.ok { success := true, user := some u }, w)
  | none =>
      match EnhancedApiService.request "/user" none w with
      | (.ok env, w1) =>
          if env.success && jsTruthyOpt env.user then
            (.ok env, { w1 with storage :=
              (StorageService.storeUserProfile w1.storage (env.user.getD (.vStr ""))).1 })
          else (.ok env, w1)
      | (.error e, w1) => (.error e, w1)

/-- `EnhancedApiService.getUserPermissions` (lines 215-230): same caching scheme
for `/user/permissions`; note the cache-hit envelope carries *only*
`data.permissions`. -/
def EnhancedApiService.getUserPermissions (forceRefresh : Bool) (w : W) :
    Except JsErr Envelope × W :=
  match (if forceRefresh then none
    else getItemVal w.storage keys.userPermissions : Option Val) with
  | some p => (.ok { success := true, permissions := some p }, w)
  | none =>
      match EnhancedApiService.request "/user/permissions" none w with
      | (.ok env, w1) =>
          if env.success && jsTruthyOpt env.permissions then
            (.ok env, { w1 with storage :=
              (StorageService.storeUserPermissions w1.storage
                (env.permissions.getD (.vStr ""))).1 })
          else (.ok env, w1)
      | (.error e, w1) => (.error e, w1)

/-- `EnhancedApiService.getHighestRoleLevel` (lines 294-305): read
`getUserPermissions()` (never forced) and return `data.highest_role_level`
when the envelope is successful and the field is truthy, else `1`; any thrown
error also yields `1`. -/
def EnhancedApiService.getHighestRoleLevel (w : W) : Val × W :=
  match EnhancedApiService.getUserPermissions false w with
  | (.ok env, w1) =>
      if env.success && jsTruthyOpt env.highestRoleLevel then
        (env.highestRoleLevel.getD (.vInt 1), w1)
      else (.vInt 1, w1)
  | (.error _, w1) => (.vInt 1, w1)

/-- `AuthProvider.getHighestRoleLevel` (src/unnamed/part_003:157-162): `1` for
an empty role list, otherwise `Math.max(...userRoles.map(role => role.level))`. -/
def AuthProvider.getHighestRoleLevel (userRoles : List Role) : Int :=
  match userRoles with
  | [] => 1
  | r :: rest => (rest.map Role.level).foldl max r.level

/-! ## Single-flight refresh (concurrency model for `refreshToken`)

`refreshToken` (EnhancedApiService.js:103-136) runs on a single-threaded event
loop.  A call executes synchronously up to the first `await` inside the IIFE:
it checks `this.refreshPromise`; if non-null it returns that promise, otherwise
it creates the promise — issuing the underlying `apiService.refreshToken()`
network call — and stores it in `this.refreshPromise`.  The `finally` clause
resets the field to null when the network call settles.  Callers that received
the same promise observe the same settlement value, so "same promise id" is
"same result". -/

/-- Event-loop state of the single-flight guard: the id of the in-flight
refresh promise (if any), the number of underlying network refresh calls
issued, and a fresh-id counter. -/
structure RefreshState where
  refreshPromise : Option Nat := none
  netCalls : Nat := 0
  nextId : Nat := 0
deriving DecidableEq, Repr

/-- The synchronous prefix of one `refreshToken()` call: return the in-flight
promise if there is one, else create a new promise (issuing one underlying
network refresh call) and store it. -/
def callRefresh : RefreshState → Nat × RefreshState
  | ⟨some p, n, i⟩ => (p, ⟨some p, n, i⟩)
  | ⟨none, n, i⟩ => (i, ⟨some i, n + 1, i + 1⟩)

/-- The `finally` clause: the in-flight promise settles and the guard resets. -/
def settleRefresh : RefreshState → RefreshState
  | ⟨_, n, i⟩ => ⟨none, n, i⟩

/-- `n` calls to `refreshToken()` all issued before the in-flight promise
settles: the list of promises handed to the callers, and the final state. -/
def callRefreshN : Nat → RefreshState → List Nat × RefreshState
  | 0, s => ([], s)
  | n + 1, s =>
      let (p, s1) := callRefresh s
      let (ps, s2) := callRefreshN n s1
      (p :: ps, s2)

/-! ## Initialization (concurrency model for `initialize`)

`initialize` (EnhancedApiService.js:20-46) guards only on the completion flag
`this.isInitialized`, which is set at the *end* of the body; there is no
in-flight-promise field.  The synchronous prefix of a call checks the flag and,
when it is false, runs up to the first `await` (`storageService.getAuthToken()`),
performing the token-restore read.  Completion sets the flag only when the body
succeeded (the catch branch returns false without setting it). -/

/-- State for the initialization protocol: the completion flag and the number
of token-restore storage reads performed. -/
structure InitState where
  isInitialized : Bool := false
  storageReads : Nat := 0
deriving DecidableEq, Repr

/-- What the synchronous prefix of one `initialize()` call did. -/
inductive InitEnterResult where
  | immediate
  | started
deriving DecidableEq, Repr

/-- Synchronous prefix of `initialize()`: an already-set flag short-circuits
(returning the cached `true`); otherwise the body starts and performs the
token-restore read. -/
def initEnter (s : InitState) : InitEnterResult × InitState :=
  if s.isInitialized then (.immediate, s)
  else (.started, { s with storageReads := s.storageReads + 1 })

/-- Completion of one started `initialize()` body: sets the flag on success,
leaves it unset on failure (the catch branch returns false). -/
def initComplete (s : InitState) (ok : Bool) : InitState :=
  if ok then { s with isInitialized := true } else s

/-- `n` concurrent `initialize()` calls, all issued before any of them reaches
completion. -/
def initEnterN : Nat → InitState → List InitEnterResult × InitState
  | 0, s => ([], s)
  | n + 1, s =>
      let (r, s1) := initEnter s
      let (rs, s2) := initEnterN n s1
      (r :: rs, s2)

/-! ## Analytics validation (ApiService.registerAnalyticsEvent, lines 357-443) -/

/-- The analytics event payload, restricted to the validated fields (the
pass-through fields `app_version`, `platform`, `platform_version` are not
inspected by the code). -/
structure EventData where
  device_uuid : Option String := none
  event_keyword : Option String := none
  latitude : Option Val := none
  longitude : Option Val := none
  location_accuracy : Option String := none
deriving DecidableEq, Repr

/-- `typeof v !== 'number' || v < lo || v > hi` for an optional field that is
known to be present. -/
def numOutOfRange (lo hi : Int) : Val → Bool
  | .vInt n => decide (n < lo) || decide (hi < n)
  | _ => true

/-- The final validation step of `registerAnalyticsEvent` (the
`location_accuracy` membership check) followed by the dispatch of the request
(`.ok` carries the dispatched endpoint and body). -/
def registerAnalyticsEventAcc (e : EventData) :
    Except JsErr (String × EventData) :=
  match e.location_accuracy with
  | some a =>
      if !(["high", "medium", "low"].contains a) then
        .error (.error "location_accuracy must be one of: high, medium, low")
      else .ok ("/analytics/register-event", e)
  | none => .ok ("/analytics/register-event", e)

/-- The longitude range check of `registerAnalyticsEvent`, then the remaining
checks. -/
def registerAnalyticsEventLng (e : EventData) :
    Except JsErr (String × EventData) :=
  match e.longitude with
  | some v =>
      if numOutOfRange (-180) 180 v then
        .error (.error "longitude must be a number between -180 and 180")
      else registerAnalyticsEventAcc e
  | none => registerAnalyticsEventAcc e

/-- `ApiService.registerAnalyticsEvent`: run every validation check in source
order, throwing the corresponding `Error` at the first violation; only when all
checks pass is the request dispatched. -/
def ApiService.registerAnalyticsEvent (e : EventData) :
    Except JsErr (String × EventData) :=
  if !jsTruthyStrOpt e.device_uuid then
    .error (.error "Missing required field: device_uuid")
  else if !jsTruthyStrOpt e.event_keyword then
    .error (.error "Missing required field: event_keyword")
  else if 255 < (e.device_uuid.getD "").length then
    .error (.error "device_uuid exceeds maximum length of 255 characters")
  else if 255 < (e.event_keyword.getD "").length then
    .error (.error "event_keyword exceeds maximum length of 255 characters")
  else match e.latitude with
  | some v =>
      if numOutOfRange (-90) 90 v then
        .error (.error "latitude must be a number between -90 and 90")
      else registerAnalyticsEventLng e
  | none => registerAnalyticsEventLng e

/-- Whether a modelled async call rejected. -/
def isThrown : Except JsErr (String × EventData) → Bool
  | .error _ => true
  | .ok _ => false

/-- The network requests dispatched by one `registerAnalyticsEvent` call: the
validation throws happen before `this.request(...)` is reached, so a rejected
validation dispatches nothing. -/
def analyticsCalls (e : EventData) : List String :=
  match ApiService.registerAnalyticsEvent e with
  | .ok (ep, _) => [ep]
  | .error _ => []

/-! ## Helper lemmas -/

theorem mapGet_mapDelete_self (st : Storage) (k : String) :
    mapGet (mapDelete st k) k = none := by
  induction st with
  | nil => rfl
  | cons kv rest ih =>
      obtain ⟨k', v⟩ := kv
      by_cases h : k' = k
      · simp [mapDelete, h, ih]
      · simp [mapDelete, mapGet, h, ih]

theorem mapGet_mapDelete_ne (st : Storage) (k k' : String) (h : k' ≠ k) :
    mapGet (mapDelete st k) k' = mapGet st k' := by
  induction st with
  | nil => rfl
  | cons kv rest ih =>
      obtain ⟨a, v⟩ := kv
      by_cases ha : a = k
      · subst ha
        simp [mapDelete, mapGet, Ne.symm h, ih]
      · simp [mapDelete, mapGet, ha, ih]

theorem mapGet_mapSet_self (st : Storage) (k : String) (v : Val) :
    mapGet (mapSet st k v) k = some v := by
  induction st with
  | nil => simp [mapSet, mapGet]
  | cons kv rest ih =>
      obtain ⟨a, w⟩ := kv
      by_cases ha : a = k
      · simp [mapSet, mapGet, ha]
      · simp [mapSet, mapGet, ha, ih]

theorem getItemVal_mapSet_self (st : Storage) (k : String) (v : Val)
    (hv : jsTruthy v = true) : getItemVal (mapSet st k v) k = some v := by
  simp [getItemVal, mapGet_mapSet_self, hv]

theorem append_singleton_ne_nil_self (l : List String) (t : List String)
    (ht : t ≠ []) : l ++ t ≠ l := by
  intro h
  have := congrArg List.length h
  simp at this
  exact ht this

theorem netFetch_calls (ep : String) (w : W) :
    (netFetch ep w).2.calls = w.calls ++ [ep] := by
  unfold netFetch
  cases w.pending <;> rfl

theorem apiRequest_calls (ep : String) (w : W) :
    (ApiService.request ep w).2.calls = w.calls ++ [ep] := by
  unfold ApiService.request
  rcases h : netFetch ep w with ⟨o, w1⟩
  have h1 : w1.calls = w.calls ++ [ep] := by
    have hh := netFetch_calls ep w
    rw [h] at hh
    exact hh
  cases o with
  | resp s env =>
      by_cases hs : statusOk s = true <;> simp [h, hs, h1]
  | netFail m => simp [h, h1]

theorem apiRefreshToken_calls (w : W) :
    (ApiService.refreshToken w).2.calls = w.calls ++ ["/refresh"] := by
  unfold ApiService.refreshToken
  rcases h : ApiService.request "/refresh" w with ⟨r, w1⟩
  have h1 : w1.calls = w.calls ++ ["/refresh"] := by
    have hh := apiRequest_calls "/refresh" w
    rw [h] at hh
    exact hh
  cases r with
  | ok env =>
      by_cases hc : (env.success && jsTruthyOpt env.token) = true <;>
        simp [h, hc, h1]
  | error e => simp [h, h1]

theorem apiLogout_calls (w : W) :
    (ApiService.logout w).2.calls = w.calls ++ ["/logout"] := by
  unfold ApiService.logout
  rcases h : ApiService.request "/logout" w with ⟨r, w1⟩
  have h1 : w1.calls = w.calls ++ ["/logout"] := by
    have hh := apiRequest_calls "/logout" w
    rw [h] at hh
    exact hh
  cases r with
  | ok env =>
      by_cases hc : env.success = true <;> simp [h, hc, h1]
  | error e => simp [h, h1]

theorem enhRefreshToken_calls (w : W) :
    (EnhancedApiService.refreshToken w).2.calls = w.calls ++ ["/refresh"] := by
  unfold EnhancedApiService.refreshToken
  rcases h : ApiService.refreshToken w with ⟨r, w1⟩
  have h1 : w1.calls = w.calls ++ ["/refresh"] := by
    have hh := apiRefreshToken_calls w
    rw [h] at hh
    exact hh
  cases r with
  | ok env =>
      by_cases hc : (env.success && jsTruthyOpt env.token) = true <;>
        simp [h, hc, h1]
  | error e =>
      simp [h, StorageService.clearAuthData, h1]

theorem enhLogout_calls (w : W) :
    (EnhancedApiService.logout w).2.calls = w.calls ++ ["/logout"] := by
  unfold EnhancedApiService.logout
  rcases h : ApiService.logout w with ⟨r, w1⟩
  have h1 : w1.calls = w.calls ++ ["/logout"] := by
    have hh := apiLogout_calls w
    rw [h] at hh
    exact hh
  cases r with
  | ok env =>
      by_cases hc : env.success = true <;>
        simp [h, hc, StorageService.clearAuthData, h1]
  | error e =>
      simp [h, StorageService.clearAuthData, h1]

/-- The endpoints fetched by one `EnhancedApiService.request` call: the original
endpoint once; or original + refresh + retry; or those plus the logout call; or
original + refresh + logout (refresh rejected, so no retry).  In particular the
original endpoint is fetched at most twice and `/refresh` at most once. -/
theorem enhRequest_trace (ep : String) (ra : Option Bool) (w : W) :
    (EnhancedApiService.request ep ra w).2.calls = w.calls ++ [ep] ∨
    (EnhancedApiService.request ep ra w).2.calls = w.calls ++ [ep, "/refresh", ep] ∨
    (EnhancedApiService.request ep ra w).2.calls =
      w.calls ++ [ep, "/refresh", ep, "/logout"] ∨
    (EnhancedApiService.request ep ra w).2.calls =
      w.calls ++ [ep, "/refresh", "/logout"] := by
  unfold EnhancedApiService.request
  rcases h1 : ApiService.request ep w with ⟨r1, w1⟩
  have hc1 : w1.calls = w.calls ++ [ep] := by
    have hh := apiRequest_calls ep w
    rw [h1] at hh
    exact hh
  cases r1 with
  | ok env => left; simp [h1, hc1]
  | error e =>
      by_cases hcond : (jsIncludes e.msg "401" && raNotFalse ra) = true
      · rcases h2 : EnhancedApiService.refreshToken w1 with ⟨r2, w2⟩
        have hc2 : w2.calls = w.calls ++ [ep, "/refresh"] := by
          have hh := enhRefreshToken_calls w1
          rw [h2] at hh
          rw [hh, hc1]
          simp
        cases r2 with
        | ok env2 =>
            rcases h3 : ApiService.request ep w2 with ⟨r3, w3⟩
            have hc3 : w3.calls = w.calls ++ [ep, "/refresh", ep] := by
              have hh := apiRequest_calls ep w2
              rw [h3] at hh
              rw [hh, hc2]
              simp
            cases r3 with
            | ok env3 => right; left; simp [h1, hcond, h2, h3, hc3]
            | error e3 =>
                rcases h4 : EnhancedApiService.logout w3 with ⟨r4, w4⟩
                have hc4 : w4.calls = w.calls ++ [ep, "/refresh", ep, "/logout"] := by
                  have hh := enhLogout_calls w3
                  rw [h4] at hh
                  rw [hh, hc3]
                  simp
                cases r4 with
                | ok env4 =>
                    right; right; left; simp [h1, hcond, h2, h3, h4, hc4]
                | error e4 =>
                    right; right; left; simp [h1, hcond, h2, h3, h4, hc4]
        | error e2 =>
            rcases h3 : EnhancedApiService.logout w2 with ⟨r3, w3⟩
            have hc3 : w3.calls = w.calls ++ [ep, "/refresh", "/logout"] := by
              have hh := enhLogout_calls w2
              rw [h3] at hh
              rw [hh, hc2]
              simp
            cases r3 with
            | ok env3 => right; right; right; simp [h1, hcond, h2, h3, hc3]
            | error e3 => right; right; right; simp [h1, hcond, h2, h3, hc3]
      · left
        simp [h1, hcond, hc1]

/-! ## Claim theorems -/

/-- Claim C4 (confirmed): for every storage state, `StorageService.clearAuthData`
rejects with a `TypeError` (it invokes the undefined method
`this.removeTokenExpiry`), and at the moment of rejection it has removed only
the auth-token and refresh-token keys; every other key — token-expiry,
user-profile, user-roles, user-permissions included — reads back unchanged. -/
theorem claim4_clearAuthData_typeError (st : Storage) :
    (StorageService.clearAuthData st).2 =
      .error (.typeError "this.removeTokenExpiry is not a function") ∧
    mapGet (StorageService.clearAuthData st).1 keys.authToken = none ∧
    mapGet (StorageService.clearAuthData st).1 keys.refreshToken = none ∧
    ∀ k, k ≠ keys.authToken → k ≠ keys.refreshToken →
      mapGet (StorageService.clearAuthData st).1 k = mapGet st k := by
  refine ⟨rfl, ?_, ?_, ?_⟩
  · have h1 : mapGet (mapDelete (mapDelete st keys.authToken) keys.refreshToken)
        keys.authToken = mapGet (mapDelete st keys.authToken) keys.authToken :=
      mapGet_mapDelete_ne _ _ _ (by decide)
    have h2 := mapGet_mapDelete_self st keys.authToken
    exact h1.trans h2
  · exact mapGet_mapDelete_self _ keys.refreshToken
  · intro k hk1 hk2
    have h1 : mapGet (mapDelete (mapDelete st keys.authToken) keys.refreshToken) k =
        mapGet (mapDelete st keys.authToken) k := mapGet_mapDelete_ne _ _ _ hk2
    have h2 : mapGet (mapDelete st keys.authToken) k = mapGet st k :=
      mapGet_mapDelete_ne _ _ _ hk1
    exact h1.trans h2

/-- Witness for C4: on a concrete storage holding an auth token, a token expiry
and a user profile, `clearAuthData` rejects with the `TypeError` and the
token-expiry and user-profile keys survive. -/
theorem claim4_witness :
    (StorageService.clearAuthData
        [(keys.authToken, Val.vStr "t"), (keys.tokenExpiry, Val.vStr "e"),
          (keys.userProfile, Val.vStr "u")]).2 =
      .error (.typeError "this.removeTokenExpiry is not a function") ∧
    mapGet (StorageService.clearAuthData
        [(keys.authToken, Val.vStr "t"), (keys.tokenExpiry, Val.vStr "e"),
          (keys.userProfile, Val.vStr "u")]).1 keys.tokenExpiry =
      some (Val.vStr "e") ∧
    mapGet (StorageService.clearAuthData
        [(keys.authToken, Val.vStr "t"), (keys.tokenExpiry, Val.vStr "e"),
          (keys.userProfile, Val.vStr "u")]).1 keys.userProfile =
      some (Val.vStr "u") := by
  have h := claim4_clearAuthData_typeError
    [(keys.authToken, Val.vStr "t"), (keys.tokenExpiry, Val.vStr "e"),
      (keys.userProfile, Val.vStr "u")]
  refine ⟨h.1, ?_, ?_⟩
  · exact (h.2.2.2 keys.tokenExpiry (by decide) (by decide)).trans rfl
  · exact (h.2.2.2 keys.userProfile (by decide) (by decide)).trans rfl

/-- Claim C5 (corrected): the primitive storage operations and the single-key
helpers never throw (each resolves with `true` / the stored value / null), but
the derived helper `clearAuthData` — contrary to the claim — rejects with a
`TypeError`, so "no StorageService operation ever throws or rejects" is false
as stated. -/
theorem claim5_amended_no_throw_except_clearAuthData (st : Storage) (k : String)
    (v : Val) (iso : String) :
    (StorageService.setItem st k v).2 = .ok true ∧
    StorageService.getItem st k = .ok (getItemVal st k) ∧
    (StorageService.removeItem st k).2 = .ok true ∧
    (StorageService.clear st).2 = .ok true ∧
    (StorageService.storeAuthToken st v).2 = .ok true ∧
    StorageService.getAuthToken st = .ok (getItemVal st keys.authToken) ∧
    (StorageService.removeAuthToken st).2 = .ok true ∧
    (StorageService.storeRefreshToken st v).2 = .ok true ∧
    (StorageService.removeRefreshToken st).2 = .ok true ∧
    (StorageService.storeTokenExpiry st iso).2 = .ok true ∧
    (StorageService.storeUserProfile st v).2 = .ok true ∧
    StorageService.getUserProfile st = .ok (getItemVal st keys.userProfile) ∧
    (StorageService.removeUserProfile st).2 = .ok true ∧
    (StorageService.storeUserRoles st v).2 = .ok true ∧
    (StorageService.removeUserRoles st).2 = .ok true ∧
    (StorageService.storeUserPermissions st v).2 = .ok true ∧
    StorageService.getUserPermissions st = .ok (getItemVal st keys.userPermissions) ∧
    (StorageService.removeUserPermissions st).2 = .ok true ∧
    (StorageService.clearAuthData st).2 =
      .error (.typeError "this.removeTokenExpiry is not a function") :=
  ⟨rfl, rfl, rfl, rfl, rfl, rfl, rfl, rfl, rfl, rfl, rfl, rfl, rfl, rfl, rfl,
    rfl, rfl, rfl, rfl⟩

/-- Counterexample for C5: `clearAuthData` — a StorageService operation built on
the primitive helpers — rejects (with a `TypeError`) on a concrete storage
state, so storage failures are not always absorbed. -/
theorem claim5_counterexample :
    (StorageService.clearAuthData [(keys.userRoles,
        Val.vRoles [{ name := "user", level := 1 }])]).2 =
      .error (.typeError "this.removeTokenExpiry is not a function") := rfl

/-- For a state with a refresh already in flight, later synchronous calls join
it: no new network call, all callers get the in-flight promise. -/
theorem callRefreshN_inflight (n p c i : Nat) :
    callRefreshN n ⟨some p, c, i⟩ = (List.replicate n p, ⟨some p, c, i⟩) := by
  induction n with
  | zero => rfl
  | succ m ih => simp [callRefreshN, callRefresh, ih, List.replicate]

/-- Claim C2 (confirmed): for all N ≥ 2 calls to
`EnhancedApiService.refreshToken()` issued before the first one's promise
settles, exactly one underlying `apiService.refreshToken()` network call is
made, and every caller receives the same promise (hence the same result). -/
theorem claim2_single_flight_refresh (n : Nat) (hn : 2 ≤ n) :
    (callRefreshN n {}).1 = List.replicate n 0 ∧
    (callRefreshN n {}).2.netCalls = 1 ∧
    ∀ p, p ∈ (callRefreshN n {}).1 → p = 0 := by
  obtain ⟨m, rfl⟩ : ∃ m, n = m + 1 := ⟨n - 1, by omega⟩
  have hstep : callRefreshN (m + 1) {} =
      (0 :: (callRefreshN m ⟨some 0, 1, 1⟩).1, (callRefreshN m ⟨some 0, 1, 1⟩).2) := by
    rfl
  rw [hstep, callRefreshN_inflight]
  refine ⟨rfl, rfl, ?_⟩
  intro p hp
  rcases List.mem_cons.mp hp with h | h
  · exact h
  · exact List.eq_of_mem_replicate h

/-- Witness for C2 at N = 3: the three callers all receive promise 0 and one
network refresh call is made. -/
theorem claim2_witness :
    (callRefreshN 3 {}).1 = List.replicate 3 0 ∧
    (callRefreshN 3 {}).2.netCalls = 1 ∧
    ∀ p, p ∈ (callRefreshN 3 {}).1 → p = 0 :=
  claim2_single_flight_refresh 3 (by omega)

/-- Starting uninitialized, each of `n` concurrent `initialize()` entries
performs its own token-restore read. -/
theorem initEnterN_reads (n : Nat) :
    ∀ r, (initEnterN n ⟨false, r⟩).2.storageReads = r + n := by
  induction n with
  | zero => intro r; simp [initEnterN]
  | succ m ih =>
      intro r
      have hstep : initEnterN (m + 1) ⟨false, r⟩ =
          ((initEnterN m ⟨false, r + 1⟩).1.cons .started,
            (initEnterN m ⟨false, r + 1⟩).2) := by
        rfl
      rw [hstep]
      simp [ih (r + 1)]
      omega

/-- Claim C6 (corrected): `initialize()` is a no-op returning the cached `true`
once a first call has *successfully* completed, and a failed attempt is not
cached; but there is no in-flight guard, so N concurrent calls issued during
the first initialization each perform their own token-restore read (the work
IS duplicated, contrary to the claim). -/
theorem claim6_amended_no_single_flight (s : InitState) (n : Nat) :
    (s.isInitialized = true → initEnter s = (.immediate, s)) ∧
    (initEnterN n { isInitialized := false, storageReads := 0 }).2.storageReads = n ∧
    (initComplete s true).isInitialized = true ∧
    (s.isInitialized = false → (initComplete s false).isInitialized = false) := by
  refine ⟨?_, ?_, ?_, ?_⟩
  · intro h; simp [initEnter, h]
  · have := initEnterN_reads n 0
    simpa using this
  · simp [initComplete]
  · intro h; simp [initComplete, h]

/-- Counterexample for C6: two `initialize()` calls issued concurrently before
either completes perform two token-restore reads — not the single shared
in-flight attempt the claim requires. -/
theorem claim6_counterexample :
    (initEnterN 2 {}).2.storageReads = 2 ∧
    (initEnterN 2 {}).1 = [.started, .started] ∧ (2 : Nat) ≠ 1 :=
  ⟨rfl, rfl, by omega⟩

/-- Witness for C6: after a successful first initialization the next call
short-circuits, and three concurrent first calls perform three reads. -/
theorem claim6_witness :
    initEnter { isInitialized := true, storageReads := 1 } =
      (.immediate, { isInitialized := true, storageReads := 1 }) ∧
    (initEnterN 3 { isInitialized := false, storageReads := 0 }).2.storageReads = 3 :=
  ⟨(claim6_amended_no_single_flight ⟨true, 1⟩ 3).1 rfl,
    (claim6_amended_no_single_flight ⟨true, 1⟩ 3).2.1⟩

/-- Claim C7 (corrected): on a non-ok response, `ApiService.request` throws a
plain `Error` whose message is the server-supplied message when that message
is a non-empty string, and `HTTP <status>` otherwise; the status code is
carried only through the fallback message, not alongside a server message. -/
theorem claim7_amended_http_error_message (ep : String) (w : W) (s : Nat)
    (env : Envelope) (rest : List NetOutcome)
    (hp : w.pending = .resp s env :: rest) (hs : statusOk s = false) :
    (ApiService.request ep w).1 =
      .error (.error (jsOrStr env.message ("HTTP " ++ toString s))) ∧
    (env.message = none ∨ env.message = some "" →
      (ApiService.request ep w).1 = .error (.error ("HTTP " ++ toString s))) ∧
    ∀ m, env.message = some m → m ≠ "" →
      (ApiService.request ep w).1 = .error (.error m) := by
  have hbase : (ApiService.request ep w).1 =
      .error (.error (jsOrStr env.message ("HTTP " ++ toString s))) := by
    unfold ApiService.request netFetch
    rw [hp]
    simp [hs]
  refine ⟨hbase, ?_, ?_⟩
  · intro h
    rcases h with h | h <;> rw [hbase, h] <;> rfl
  · intro m hm hne
    rw [hbase, hm]
    simp [jsOrStr, hne]

/-- Counterexample for C7: a 500 response whose body carries the message
"Server exploded" is thrown as `Error("Server exploded")` — a plain error whose
only payload is that message, which does not contain the status code, so the
thrown error does not carry both the status and the server message. -/
theorem claim7_counterexample :
    (ApiService.request "/user"
        { pending := [.resp 500 { message := some "Server exploded" }] }).1 =
      .error (.error "Server exploded") ∧
    jsIncludes "Server exploded" "500" = false :=
  ⟨rfl, rfl⟩

/-- Witness for C7: a 404 response with no body message throws the fallback
`Error("HTTP 404")`. -/
theorem claim7_witness :
    (ApiService.request "/user" { pending := [.resp 404 {}] }).1 =
      .error (.error "HTTP 404") := by
  have h := claim7_amended_http_error_message "/user"
    { pending := [.resp 404 {}] } 404 {} [] rfl (by decide)
  exact h.2.1 (Or.inl rfl)

/-- `Math.max` seeded with `x` dominates its seed. -/
theorem foldl_max_init_le (l : List Int) (x : Int) : x ≤ l.foldl max x := by
  induction l generalizing x with
  | nil => simp
  | cons a t ih => exact le_trans (le_max_left x a) (ih (max x a))

/-- `Math.max` dominates every member. -/
theorem foldl_max_mem_le (l : List Int) (x a : Int) (ha : a ∈ l) :
    a ≤ l.foldl max x := by
  induction l generalizing x with
  | nil => cases ha
  | cons b t ih =>
      rcases List.mem_cons.mp ha with h | h
      · subst h
        exact le_trans (le_max_right x a) (foldl_max_init_le t (max x a))
      · exact ih (max x b) h

/-- `Math.max` returns its seed or a member. -/
theorem foldl_max_eq_init_or_mem (l : List Int) (x : Int) :
    l.foldl max x = x ∨ l.foldl max x ∈ l := by
  induction l generalizing x with
  | nil => left; rfl
  | cons b t ih =>
      rcases ih (max x b) with h | h
      · rcases le_total x b with hxb | hbx
        · right
          rw [List.foldl_cons, h, max_eq_right hxb]
          exact List.mem_cons_self b t
        · left
          rw [List.foldl_cons, h, max_eq_left hbx]
      · right
        exact List.mem_cons_of_mem b h

/-- Claim C9 (corrected): `AuthProvider.getHighestRoleLevel` does return the
maximum level over the cached role list (and `1` when it is empty), but
`EnhancedApiService.getHighestRoleLevel` does not compute a maximum over roles
at all: it returns the permissions response's `highest_role_level` field and
falls back to `1` — in particular it returns `1` whenever the permissions are
served from the storage cache (whose envelope lacks that field), regardless of
the cached roles. -/
theorem claim9_amended_highest_role_level (roles : List Role) (w : W) (p : Val) :
    (roles = [] → AuthProvider.getHighestRoleLevel roles = 1) ∧
    (∀ r, r ∈ roles → r.level ≤ AuthProvider.getHighestRoleLevel roles) ∧
    (roles ≠ [] →
      ∃ r, r ∈ roles ∧ AuthProvider.getHighestRoleLevel roles = r.level) ∧
    (getItemVal w.storage keys.userPermissions = some p →
      (EnhancedApiService.getHighestRoleLevel w).1 = Val.vInt 1) := by
  refine ⟨?_, ?_, ?_, ?_⟩
  · intro h
    rw [h]
    rfl
  · intro r hr
    cases roles with
    | nil => cases hr
    | cons r0 rest =>
        rcases List.mem_cons.mp hr with h | h
        · subst h
          exact foldl_max_init_le (rest.map Role.level) r.level
        · exact foldl_max_mem_le (rest.map Role.level) r0.level r.level
            (List.mem_map_of_mem Role.level h)
  · intro hne
    cases roles with
    | nil => exact absurd rfl hne
    | cons r0 rest =>
        rcases foldl_max_eq_init_or_mem (rest.map Role.level) r0.level with h | h
        · exact ⟨r0, List.mem_cons_self r0 rest, h⟩
        · rcases List.mem_map.mp h with ⟨r, hr, hlev⟩
          exact ⟨r, List.mem_cons_of_mem r0 hr, hlev.symm⟩
  · intro hp
    unfold EnhancedApiService.getHighestRoleLevel EnhancedApiService.getUserPermissions
    simp [hp, jsTruthyOpt]

/-- Counterexample for C9: with permissions served from cache and a cached role
of level 4, `EnhancedApiService.getHighestRoleLevel` returns `1`, not the
maximum level (4) over the cached roles. -/
theorem claim9_counterexample :
    (EnhancedApiService.getHighestRoleLevel
        { storage := [(keys.userPermissions, Val.vList ["p"]),
            (keys.userRoles, Val.vRoles [{ name := "admin", level := 4 }])] }).1 =
      Val.vInt 1 ∧
    AuthProvider.getHighestRoleLevel [{ name := "admin", level := 4 }] = 4 ∧
    Val.vInt 1 ≠ Val.vInt 4 :=
  ⟨rfl, rfl, by decide⟩

/-- Witness for C9: the empty role list yields 1, a two-role list yields the
max level of a member, and a concrete cached-permissions state yields 1 from
the enhanced service. -/
theorem claim9_witness :
    AuthProvider.getHighestRoleLevel [] = 1 ∧
    (∃ r, r ∈ [({ name := "owner", level := 2 } : Role),
        { name := "admin", level := 4 }] ∧
      AuthProvider.getHighestRoleLevel
        [{ name := "owner", level := 2 }, { name := "admin", level := 4 }] =
        r.level) ∧
    (EnhancedApiService.getHighestRoleLevel
        { storage := [(keys.userPermissions, Val.vList ["x"])] }).1 = Val.vInt 1 := by
  have h := claim9_amended_highest_role_level
    [({ name := "owner", level := 2 } : Role), { name := "admin", level := 4 }]
    { storage := [(keys.userPermissions, Val.vList ["x"])] } (Val.vList ["x"])
  refine ⟨?_, h.2.2.1 (by decide), h.2.2.2 rfl⟩
  exact (claim9_amended_highest_role_level [] { storage := [] } (Val.vStr "")).1 rfl


/-- If the accuracy step dispatched the request, the accuracy value (when
supplied) was valid. -/
theorem analyticsAcc_ok_implies (e : EventData) (x : String × EventData)
    (h : registerAnalyticsEventAcc e = .ok x) :
    ∀ a, e.location_accuracy = some a →
      (["high", "medium", "low"].contains a) = true := by
  intro a ha
  by_contra hc
  have hc' : (["high", "medium", "low"].contains a) = false := by
    cases hcc : (["high", "medium", "low"].contains a) with
    | false => rfl
    | true => exact absurd hcc hc
  unfold registerAnalyticsEventAcc at h
  rw [ha] at h
  have hand : ¬a = "high" ∧ ¬a = "medium" ∧ ¬a = "low" := by
    refine ⟨?_, ?_, ?_⟩ <;> intro hEq <;> subst hEq <;> exact absurd hc' (by decide)
  simp [hand.1, hand.2.1, hand.2.2] at h

/-- If the longitude step dispatched the request, the longitude and accuracy
values (when supplied) were valid. -/
theorem analyticsLng_ok_implies (e : EventData) (x : String × EventData)
    (h : registerAnalyticsEventLng e = .ok x) :
    (∀ v, e.longitude = some v → numOutOfRange (-180) 180 v = false) ∧
    (∀ a, e.location_accuracy = some a →
      (["high", "medium", "low"].contains a) = true) := by
  have hacc : registerAnalyticsEventAcc e = .ok x := by
    unfold registerAnalyticsEventLng at h
    cases hl : e.longitude with
    | none =>
        rw [hl] at h
        exact h
    | some v =>
        rw [hl] at h
        cases hb : numOutOfRange (-180) 180 v with
        | true => simp [hb] at h
        | false =>
            simp only [hb] at h
            simpa using h
  constructor
  · intro v hv
    unfold registerAnalyticsEventLng at h
    rw [hv] at h
    cases hb : numOutOfRange (-180) 180 v with
    | true => simp [hb] at h
    | false => rfl
  · exact analyticsAcc_ok_implies e x hacc

/-- If `registerAnalyticsEvent` dispatched the request, every validated field
was valid. -/
theorem analytics_ok_implies (e : EventData) (x : String × EventData)
    (h : ApiService.registerAnalyticsEvent e = .ok x) :
    jsTruthyStrOpt e.device_uuid = true ∧
    jsTruthyStrOpt e.event_keyword = true ∧
    (e.device_uuid.getD "").length ≤ 255 ∧
    (e.event_keyword.getD "").length ≤ 255 ∧
    (∀ v, e.latitude = some v → numOutOfRange (-90) 90 v = false) ∧
    (∀ v, e.longitude = some v → numOutOfRange (-180) 180 v = false) ∧
    (∀ a, e.location_accuracy = some a →
      (["high", "medium", "low"].contains a) = true) := by
  unfold ApiService.registerAnalyticsEvent at h
  by_cases h1 : jsTruthyStrOpt e.device_uuid = true
  case neg =>
    have h1' : jsTruthyStrOpt e.device_uuid = false := by
      cases hx : jsTruthyStrOpt e.device_uuid with
      | false => rfl
      | true => exact absurd hx h1
    rw [h1'] at h
    simp at h
  by_cases h2 : jsTruthyStrOpt e.event_keyword = true
  case neg =>
    have h2' : jsTruthyStrOpt e.event_keyword = false := by
      cases hx : jsTruthyStrOpt e.event_keyword with
      | false => rfl
      | true => exact absurd hx h2
    rw [h1, h2'] at h
    simp at h
  by_cases h3 : (e.device_uuid.getD "").length ≤ 255
  case neg =>
    rw [h1, h2] at h
    simp [Nat.not_le.mp h3] at h
  by_cases h4 : (e.event_keyword.getD "").length ≤ 255
  case neg =>
    rw [h1, h2] at h
    simp [Nat.not_lt.mpr h3, Nat.not_le.mp h4] at h
  rw [h1, h2] at h
  simp only [Bool.not_true, Bool.false_eq_true, if_false,
    if_neg (Nat.not_lt.mpr h3), if_neg (Nat.not_lt.mpr h4)] at h
  have hlat : ∀ v, e.latitude = some v → numOutOfRange (-90) 90 v = false := by
    intro v hv
    rw [hv] at h
    cases hb : numOutOfRange (-90) 90 v with
    | true => simp [hb] at h
    | false => rfl
  have hLok : registerAnalyticsEventLng e = .ok x := by
    cases hl : e.latitude with
    | none =>
        rw [hl] at h
        exact h
    | some v =>
        rw [hl] at h
        cases hb : numOutOfRange (-90) 90 v with
        | true => simp [hb] at h
        | false =>
            simp only [hb] at h
            simpa using h
  exact ⟨h1, h2, h3, h4, hlat, (analyticsLng_ok_implies e x hLok).1,
    (analyticsLng_ok_implies e x hLok).2⟩

/-- Claim C10 (confirmed): every validation rule of `registerAnalyticsEvent`
(required `device_uuid` / `event_keyword` present, both at most 255 characters,
latitude a number in [-90, 90], longitude a number in [-180, 180], accuracy in
high/medium/low) is enforced before any network dispatch: any violation makes
the call reject with a validation `Error` and dispatch no request. -/
theorem claim10_analytics_validation (e : EventData) :
    (jsTruthyStrOpt e.device_uuid = false →
      isThrown (ApiService.registerAnalyticsEvent e) = true ∧ analyticsCalls e = []) ∧
    (jsTruthyStrOpt e.event_keyword = false →
      isThrown (ApiService.registerAnalyticsEvent e) = true ∧ analyticsCalls e = []) ∧
    (∀ s, e.device_uuid = some s → 255 < s.length →
      isThrown (ApiService.registerAnalyticsEvent e) = true ∧ analyticsCalls e = []) ∧
    (∀ s, e.event_keyword = some s → 255 < s.length →
      isThrown (ApiService.registerAnalyticsEvent e) = true ∧ analyticsCalls e = []) ∧
    (∀ v, e.latitude = some v → numOutOfRange (-90) 90 v = true →
      isThrown (ApiService.registerAnalyticsEvent e) = true ∧ analyticsCalls e = []) ∧
    (∀ v, e.longitude = some v → numOutOfRange (-180) 180 v = true →
      isThrown (ApiService.registerAnalyticsEvent e) = true ∧ analyticsCalls e = []) ∧
    (∀ a, e.location_accuracy = some a →
      (["high", "medium", "low"].contains a) = false →
      isThrown (ApiService.registerAnalyticsEvent e) = true ∧ analyticsCalls e = []) := by
  refine ⟨?_, ?_, ?_, ?_, ?_, ?_, ?_⟩
  · intro hc
    cases hres : ApiService.registerAnalyticsEvent e with
    | error err => exact ⟨rfl, by simp [analyticsCalls, hres]⟩
    | ok x =>
        have hok := analytics_ok_implies e x hres
        rw [hok.1] at hc
        cases hc
  · intro hc
    cases hres : ApiService.registerAnalyticsEvent e with
    | error err => exact ⟨rfl, by simp [analyticsCalls, hres]⟩
    | ok x =>
        have hok := analytics_ok_implies e x hres
        rw [hok.2.1] at hc
        cases hc
  · intro s hs hlen
    cases hres : ApiService.registerAnalyticsEvent e with
    | error err => exact ⟨rfl, by simp [analyticsCalls, hres]⟩
    | ok x =>
        have hok := analytics_ok_implies e x hres
        have hle := hok.2.2.1
        rw [hs] at hle
        simp at hle
        omega
  · intro s hs hlen
    cases hres : ApiService.registerAnalyticsEvent e with
    | error err => exact ⟨rfl, by simp [analyticsCalls, hres]⟩
    | ok x =>
        have hok := analytics_ok_implies e x hres
        have hle := hok.2.2.2.1
        rw [hs] at hle
        simp at hle
        omega
  · intro v hv hbad
    cases hres : ApiService.registerAnalyticsEvent e with
    | error err => exact ⟨rfl, by simp [analyticsCalls, hres]⟩
    | ok x =>
        have hok := analytics_ok_implies e x hres
        rw [hok.2.2.2.2.1 v hv] at hbad
        cases hbad
  · intro v hv hbad
    cases hres : ApiService.registerAnalyticsEvent e with
    | error err => exact ⟨rfl, by simp [analyticsCalls, hres]⟩
    | ok x =>
        have hok := analytics_ok_implies e x hres
        rw [hok.2.2.2.2.2.1 v hv] at hbad
        cases hbad
  · intro a ha hbad
    cases hres : ApiService.registerAnalyticsEvent e with
    | error err => exact ⟨rfl, by simp [analyticsCalls, hres]⟩
    | ok x =>
        have hok := analytics_ok_implies e x hres
        rw [hok.2.2.2.2.2.2 a ha] at hbad
        cases hbad

/-- Witness for C10 at the spec's own example: `device_uuid "d"`,
`event_keyword "e"`, `latitude 95` rejects with a validation error and
dispatches no request. -/
theorem claim10_witness :
    isThrown (ApiService.registerAnalyticsEvent
      { device_uuid := some "d", event_keyword := some "e",
        latitude := some (.vInt 95) }) = true ∧
    analyticsCalls
      { device_uuid := some "d", event_keyword := some "e",
        latitude := some (.vInt 95) } = [] :=
  (claim10_analytics_validation
      { device_uuid := some "d", event_keyword := some "e",
        latitude := some (.vInt 95) }).2.2.2.2.1 (Val.vInt 95) rfl (by decide)

/-- Claim C3 (corrected): `EnhancedApiService.logout` local cleanup is *not*
unconditional, and never complete.  On a success envelope the in-memory token
is cleared (by the base client) and `clearAuthData` removes the auth-token and
refresh-token keys before rejecting with a `TypeError`, so the call rejects; on
a failure envelope (`success: false`) nothing at all is cleared and the
envelope is returned; on a rejected remote call (network error or non-ok
status) the two keys are removed but the in-memory token is *not* cleared and
the call rejects with the `TypeError`. -/
theorem claim3_amended_logout_cleanup (st : Storage) (tok : Option Val)
    (s : Nat) (env : Envelope) (rest : List NetOutcome) (m : String) :
    (statusOk s = true → env.success = true →
      EnhancedApiService.logout ⟨st, tok, .resp s env :: rest, []⟩ =
        (.error (.typeError "this.removeTokenExpiry is not a function"),
          ⟨mapDelete (mapDelete (mapDelete (mapDelete st keys.authToken)
              keys.refreshToken) keys.authToken) keys.refreshToken,
            none, rest, ["/logout"]⟩)) ∧
    (statusOk s = true → env.success = false →
      EnhancedApiService.logout ⟨st, tok, .resp s env :: rest, []⟩ =
        (.ok env, ⟨st, tok, rest, ["/logout"]⟩)) ∧
    (statusOk s = false →
      EnhancedApiService.logout ⟨st, tok, .resp s env :: rest, []⟩ =
        (.error (.typeError "this.removeTokenExpiry is not a function"),
          ⟨mapDelete (mapDelete st keys.authToken) keys.refreshToken,
            tok, rest, ["/logout"]⟩)) ∧
    EnhancedApiService.logout ⟨st, tok, .netFail m :: rest, []⟩ =
      (.error (.typeError "this.removeTokenExpiry is not a function"),
        ⟨mapDelete (mapDelete st keys.authToken) keys.refreshToken,
          tok, rest, ["/logout"]⟩) := by
  refine ⟨?_, ?_, ?_, ?_⟩
  · intro hs hsucc
    unfold EnhancedApiService.logout ApiService.logout ApiService.request netFetch
      StorageService.clearAuthData StorageService.removeAuthToken
      StorageService.removeRefreshToken StorageService.removeItem
    simp [hs, hsucc]
  · intro hs hsucc
    unfold EnhancedApiService.logout ApiService.logout ApiService.request netFetch
    simp [hs, hsucc]
  · intro hs
    unfold EnhancedApiService.logout ApiService.logout ApiService.request netFetch
      StorageService.clearAuthData StorageService.removeAuthToken
      StorageService.removeRefreshToken StorageService.removeItem
    simp [hs]
  · unfold EnhancedApiService.logout ApiService.logout ApiService.request netFetch
      StorageService.clearAuthData StorageService.removeAuthToken
      StorageService.removeRefreshToken StorageService.removeItem
    simp

/-- Counterexample for C3: a remote logout that resolves with a failure
envelope (`success: false`) leaves the stored auth token and the in-memory
token completely untouched — local cleanup is skipped, contradicting "this
local cleanup is unconditional". -/
theorem claim3_counterexample :
    EnhancedApiService.logout
        ⟨[(keys.authToken, Val.vStr "t"), (keys.userProfile, Val.vStr "u")],
          some (Val.vStr "t"), [.resp 200 { success := false }], []⟩ =
      (.ok { success := false },
        ⟨[(keys.authToken, Val.vStr "t"), (keys.userProfile, Val.vStr "u")],
          some (Val.vStr "t"), [], ["/logout"]⟩) ∧
    mapGet (EnhancedApiService.logout
        ⟨[(keys.authToken, Val.vStr "t"), (keys.userProfile, Val.vStr "u")],
          some (Val.vStr "t"), [.resp 200 { success := false }], []⟩).2.storage
      keys.authToken = some (Val.vStr "t") :=
  ⟨rfl, rfl⟩

/-- Witness for C3: on a concrete success envelope, logout clears the token,
removes the two token keys, leaves the user profile, and rejects with the
`TypeError`; on a concrete network failure the token survives. -/
theorem claim3_witness :
    EnhancedApiService.logout
        ⟨[(keys.authToken, Val.vStr "t"), (keys.userProfile, Val.vStr "u")],
          some (Val.vStr "t"), [.resp 200 { success := true }], []⟩ =
      (.error (.typeError "this.removeTokenExpiry is not a function"),
        ⟨[(keys.userProfile, Val.vStr "u")], none, [], ["/logout"]⟩) ∧
    EnhancedApiService.logout
        ⟨[(keys.authToken, Val.vStr "t")], some (Val.vStr "t"),
          [.netFail "timeout"], []⟩ =
      (.error (.typeError "this.removeTokenExpiry is not a function"),
        ⟨[], some (Val.vStr "t"), [], ["/logout"]⟩) := by
  constructor
  · have h := (claim3_amended_logout_cleanup
      [(keys.authToken, Val.vStr "t"), (keys.userProfile, Val.vStr "u")]
      (some (Val.vStr "t")) 200 { success := true } [] "x").1 (by decide) rfl
    exact h.trans rfl
  · have h := (claim3_amended_logout_cleanup
      [(keys.authToken, Val.vStr "t")] (some (Val.vStr "t")) 200 {} []
      "timeout").2.2.2
    exact h.trans rfl

/-- Claim C1 (corrected): `EnhancedApiService.request` triggers its
refresh-and-retry only when the thrown error's *message* contains the substring
"401" (and `requireAuth` is not `false`) — an HTTP 401 whose server-supplied
message lacks that substring is propagated with no refresh and no retry.  When
the protocol does trigger: exactly one refresh call is issued; if the refresh
resolves the original call is retried exactly once; if the refresh rejects or
the retry fails, `logout()` is invoked and the request rejects (with `logout`'s
own rejection when that rejects, otherwise the session-expired error); the
original endpoint is never fetched more than twice. -/
theorem claim1_amended_refresh_retry (w : W) (hw : w.calls = []) (ep : String)
    (ra : Option Bool) :
    ((EnhancedApiService.request ep ra w).2.calls = [ep] ∨
      (EnhancedApiService.request ep ra w).2.calls = [ep, "/refresh", ep] ∨
      (EnhancedApiService.request ep ra w).2.calls = [ep, "/refresh", ep, "/logout"] ∨
      (EnhancedApiService.request ep ra w).2.calls = [ep, "/refresh", "/logout"]) ∧
    (∀ e w1, ApiService.request ep w = (.error e, w1) →
      (jsIncludes e.msg "401" && raNotFalse ra) = false →
      EnhancedApiService.request ep ra w = (.error e, w1)) ∧
    ∀ e w1, ApiService.request ep w = (.error e, w1) →
      (jsIncludes e.msg "401" && raNotFalse ra) = true →
      ((EnhancedApiService.request ep ra w).2.calls = [ep, "/refresh", ep] ∨
        (EnhancedApiService.request ep ra w).2.calls = [ep, "/refresh", ep, "/logout"] ∨
        (EnhancedApiService.request ep ra w).2.calls = [ep, "/refresh", "/logout"]) ∧
      (∀ e2 w2, EnhancedApiService.refreshToken w1 = (.error e2, w2) →
        (EnhancedApiService.request ep ra w).2.calls = [ep, "/refresh", "/logout"] ∧
        ∃ e3, (EnhancedApiService.request ep ra w).1 = .error e3) ∧
      ∀ env2 w2 e3 w3, EnhancedApiService.refreshToken w1 = (.ok env2, w2) →
        ApiService.request ep w2 = (.error e3, w3) →
        (EnhancedApiService.request ep ra w).2.calls = [ep, "/refresh", ep, "/logout"] ∧
        ∃ e4, (EnhancedApiService.request ep ra w).1 = .error e4 := by
  refine ⟨?_, ?_, ?_⟩
  · have h := enhRequest_trace ep ra w
    rw [hw] at h
    simpa using h
  · intro e w1 h1 hcond
    unfold EnhancedApiService.request
    rw [h1]
    simp [hcond]
  · intro e w1 h1 hcond
    have hc1 : w1.calls = [ep] := by
      have hh := apiRequest_calls ep w
      rw [h1, hw] at hh
      simpa using hh
    rcases h2 : EnhancedApiService.refreshToken w1 with ⟨r2, w2⟩
    have hc2 : w2.calls = [ep, "/refresh"] := by
      have hh := enhRefreshToken_calls w1
      rw [h2] at hh
      rw [hh, hc1]
      rfl
    cases r2 with
    | error e2 =>
        rcases h3 : EnhancedApiService.logout w2 with ⟨r3, w3⟩
        have hc3 : w3.calls = [ep, "/refresh", "/logout"] := by
          have hh := enhLogout_calls w2
          rw [h3] at hh
          rw [hh, hc2]
          rfl
        cases r3 with
        | ok env3 =>
            have hreq : EnhancedApiService.request ep ra w =
                (.error (.error "Authentication expired. Please login again."), w3) := by
              unfold EnhancedApiService.request
              rw [h1]
              simp [hcond, h2, h3]
            refine ⟨Or.inr (Or.inr (by rw [hreq]; exact hc3)), ?_, ?_⟩
            · intro e2' w2' _
              exact ⟨by rw [hreq]; exact hc3, ⟨_, by rw [hreq]⟩⟩
            · intro env2' w2' e3' w3' h2' _
              simp at h2'
        | error e3 =>
            have hreq : EnhancedApiService.request ep ra w = (.error e3, w3) := by
              unfold EnhancedApiService.request
              rw [h1]
              simp [hcond, h2, h3]
            refine ⟨Or.inr (Or.inr (by rw [hreq]; exact hc3)), ?_, ?_⟩
            · intro e2' w2' _
              exact ⟨by rw [hreq]; exact hc3, ⟨_, by rw [hreq]⟩⟩
            · intro env2' w2' e3' w3' h2' _
              simp at h2'
    | ok env2 =>
        rcases h3 : ApiService.request ep w2 with ⟨r3, w3⟩
        have hc3 : w3.calls = [ep, "/refresh", ep] := by
          have hh := apiRequest_calls ep w2
          rw [h3] at hh
          rw [hh, hc2]
          rfl
        cases r3 with
        | ok env3 =>
            have hreq : EnhancedApiService.request ep ra w = (.ok env3, w3) := by
              unfold EnhancedApiService.request
              rw [h1]
              simp [hcond, h2, h3]
            refine ⟨Or.inl (by rw [hreq]; exact hc3), ?_, ?_⟩
            · intro e2' w2' h2'
              simp at h2'
            · intro env2' w2' e3' w3' h2' h3'
              simp at h2'
              obtain ⟨henv, hww⟩ := h2'
              rw [← hww] at h3'
              rw [h3] at h3'
              simp at h3'
        | error e3 =>
            rcases h4 : EnhancedApiService.logout w3 with ⟨r4, w4⟩
            have hc4 : w4.calls = [ep, "/refresh", ep, "/logout"] := by
              have hh := enhLogout_calls w3
              rw [h4] at hh
              rw [hh, hc3]
              rfl
            cases r4 with
            | ok env4 =>
                have hreq : EnhancedApiService.request ep ra w =
                    (.error (.error "Authentication expired. Please login again."), w4) := by
                  unfold EnhancedApiService.request
                  rw [h1]
                  simp [hcond, h2, h3, h4]
                refine ⟨Or.inr (Or.inl (by rw [hreq]; exact hc4)), ?_, ?_⟩
                · intro e2' w2' h2'
                  simp at h2'
                · intro env2' w2' e3' w3' _ _
                  exact ⟨by rw [hreq]; exact hc4, ⟨_, by rw [hreq]⟩⟩
            | error e4 =>
                have hreq : EnhancedApiService.request ep ra w = (.error e4, w4) := by
                  unfold EnhancedApiService.request
                  rw [h1]
                  simp [hcond, h2, h3, h4]
                refine ⟨Or.inr (Or.inl (by rw [hreq]; exact hc4)), ?_, ?_⟩
                · intro e2' w2' h2'
                  simp at h2'
                · intro env2' w2' e3' w3' _ _
                  exact ⟨by rw [hreq]; exact hc4, ⟨_, by rw [hreq]⟩⟩

/-- Counterexample for C1: a call that fails with HTTP 401 whose server-supplied
message is "Unauthenticated." (which does not contain the substring "401") is
propagated as-is: no refresh is triggered and the original call is not retried,
contradicting "if the underlying call fails with an HTTP 401 ... exactly one
refreshToken() is triggered and the original call is retried exactly once". -/
theorem claim1_counterexample :
    EnhancedApiService.request "/user" none
        { pending := [.resp 401 { message := some "Unauthenticated." }] } =
      (.error (.error "Unauthenticated."), { pending := [], calls := ["/user"] }) ∧
    jsIncludes "Unauthenticated." "401" = false :=
  ⟨rfl, rfl⟩

/-- Witness for C1: a 401 with no server message (so the error message is the
fallback "HTTP 401") followed by a failing refresh yields the trace
original-refresh-logout and a rejected request. -/
theorem claim1_witness :
    (EnhancedApiService.request "/user" none
        { pending := [.resp 401 {}, .netFail "x"] }).2.calls =
      ["/user", "/refresh", "/logout"] ∧
    ∃ e, (EnhancedApiService.request "/user" none
        { pending := [.resp 401 {}, .netFail "x"] }).1 = .error e := by
  have h := claim1_amended_refresh_retry
    { pending := [.resp 401 {}, .netFail "x"] } rfl "/user" none
  have h3 := h.2.2 (.error "HTTP 401")
    { pending := [.netFail "x"], calls := ["/user"] } rfl rfl
  exact h3.2.1 (.typeError "this.removeTokenExpiry is not a function")
    { pending := [], calls := ["/user", "/refresh"] } rfl

/-- Claim C8 (confirmed): `getUserProfile(false)` with a stored profile makes no
network call and returns the stored profile wrapped in a success envelope (the
world is completely untouched); `getUserProfile(true)`, or `getUserProfile(false)`
with no stored profile, always fetches (the call trace strictly grows), and
whenever the result is a success envelope containing a (truthy) user, the
stored profile has been overwritten with that fetched value. -/
theorem claim8_profile_caching (w : W) :
    (∀ u, getItemVal w.storage keys.userProfile = some u →
      EnhancedApiService.getUserProfile false w =
        (.ok { success := true, user := some u }, w)) ∧
    ∀ force, (force = true ∨ getItemVal w.storage keys.userProfile = none) →
      (EnhancedApiService.getUserProfile force w).2.calls ≠ w.calls ∧
      ∀ env u, (EnhancedApiService.getUserProfile force w).1 = .ok env →
        env.success = true → env.user = some u → jsTruthy u = true →
        getItemVal (EnhancedApiService.getUserProfile force w).2.storage
          keys.userProfile = some u := by
  constructor
  · intro u hu
    unfold EnhancedApiService.getUserProfile
    simp [hu]
  · intro force hforce
    have hcached : (if force then none
        else getItemVal w.storage keys.userProfile : Option Val) = none := by
      rcases hforce with h | h
      · simp [h]
      · cases force <;> simp [h]
    rcases h : EnhancedApiService.request "/user" none w with ⟨r, w1⟩
    have htr : w1.calls ≠ w.calls := by
      have ht := enhRequest_trace "/user" none w
      rw [h] at ht
      rcases ht with hh | hh | hh | hh <;> rw [hh] <;>
        exact append_singleton_ne_nil_self _ _ (by simp)
    cases r with
    | ok env =>
        by_cases hc : (env.success && jsTruthyOpt env.user) = true
        · have hreq : EnhancedApiService.getUserProfile force w =
              (.ok env, { w1 with storage :=
                (StorageService.storeUserProfile w1.storage
                  (env.user.getD (.vStr ""))).1 }) := by
            unfold EnhancedApiService.getUserProfile
            rw [hcached]
            simp [h, hc]
          constructor
          · rw [hreq]
            exact htr
          · intro env' u h1 h2 h3 h4
            rw [hreq] at h1
            simp at h1
            subst h1
            rw [hreq]
            rw [h3]
            simp [StorageService.storeUserProfile, StorageService.setItem]
            exact getItemVal_mapSet_self _ _ _ h4
        · have hreq : EnhancedApiService.getUserProfile force w = (.ok env, w1) := by
            unfold EnhancedApiService.getUserProfile
            rw [hcached]
            simp [h, hc]
          constructor
          · rw [hreq]
            exact htr
          · intro env' u h1 h2 h3 h4
            rw [hreq] at h1
            simp at h1
            subst h1
            rw [h2, h3] at hc
            simp [jsTruthyOpt, h4] at hc
    | error e =>
        have hreq : EnhancedApiService.getUserProfile force w = (.error e, w1) := by
          unfold EnhancedApiService.getUserProfile
          rw [hcached]
          simp [h]
        constructor
        · rw [hreq]
          exact htr
        · intro env' u h1 h2 h3 h4
          rw [hreq] at h1
          simp at h1

/-- Witness for C8: a stored profile "alice" is returned with zero fetches when
not forced; a forced call with a success response containing "bob" fetches and
overwrites the stored profile with "bob". -/
theorem claim8_witness :
    EnhancedApiService.getUserProfile false
        ⟨[(keys.userProfile, Val.vStr "alice")], none, [], []⟩ =
      (.ok { success := true, user := some (Val.vStr "alice") },
        ⟨[(keys.userProfile, Val.vStr "alice")], none, [], []⟩) ∧
    (EnhancedApiService.getUserProfile true
        ⟨[(keys.userProfile, Val.vStr "alice")], none,
          [.resp 200 ⟨true, none, none, some (Val.vStr "bob"), none, none⟩],
          []⟩).2.calls ≠ ([] : List String) ∧
    getItemVal (EnhancedApiService.getUserProfile true
        ⟨[(keys.userProfile, Val.vStr "alice")], none,
          [.resp 200 ⟨true, none, none, some (Val.vStr "bob"), none, none⟩],
          []⟩).2.storage keys.userProfile = some (Val.vStr "bob") := by
  refine ⟨(claim8_profile_caching _).1 (Val.vStr "alice") rfl, ?_, ?_⟩
  · exact ((claim8_profile_caching
      ⟨[(keys.userProfile, Val.vStr "alice")], none,
        [.resp 200 ⟨true, none, none, some (Val.vStr "bob"), none, none⟩],
        []⟩).2 true (Or.inl rfl)).1
  · exact ((claim8_profile_caching
      ⟨[(keys.userProfile, Val.vStr "alice")], none,
        [.resp 200 ⟨true, none, none, some (Val.vStr "bob"), none, none⟩],
        []⟩).2 true (Or.inl rfl)).2
      ⟨true, none, none, some (Val.vStr "bob"), none, none⟩ (Val.vStr "bob")
      rfl rfl rfl rfl
